import Mathlib

/-!
Shallow embedding of the "Te Peguei!" anti-theft alarm app (App.tsx and the
incident-log/alarm-engine helpers it defines).  JavaScript numbers are
modelled as rationals (`ℚ`); nullable sensor fields as `Option ℚ`; the React
state hooks and refs become fields of an explicit `AppState` record threaded
through each handler.  `Date.now()` and `toLocaleString` become explicit
`nowMs`/`ts` parameters of the functions that read the clock.
-/

namespace TePeguei

/-- Numeric threshold constants from the top of App.tsx. -/
def MOTION_THRESHOLD : ℚ := 6/10

def GYROSCOPE_THRESHOLD : ℚ := 7/10

def LIGHT_CHANGE_THRESHOLD_LUX : ℚ := 50

def PROXIMITY_FALLBACK_THRESHOLD_CM : ℚ := 5

def MAGNETOMETER_CHANGE_THRESHOLD_UT : ℚ := 20

def BAROMETER_CHANGE_THRESHOLD_PA : ℚ := 20

def ARMING_DELAY_MS : ℕ := 3000

def ALARM_SOUND_INTERVAL_MS : ℕ := 1000

/-- A 3-axis reading with all components present (the shape stored in
`lastAccelRef` / `lastMagnetometerReadingRef`). -/
structure Vec3 where
  x : ℚ
  y : ℚ
  z : ℚ
deriving DecidableEq, Repr

/-- Geolocation coordinates kept on a log entry. -/
structure Coordinates where
  latitude : ℚ
  longitude : ℚ
  accuracy : ℚ
deriving DecidableEq, Repr

/-- `LogEntry` from types.ts: id and timestamp are strings
(`Date.now().toString()` and a locale-formatted date). -/
structure LogEntry where
  id : String
  timestamp : String
  message : String
  coordinates : Option Coordinates
deriving DecidableEq, Repr

/-- Builds the entry object created inside `addLogEntry` (and `clearLogs`):
`id: Date.now().toString()`, `timestamp: new Date().toLocaleString(...)`. -/
def mkLogEntry (nowMs : ℕ) (ts : String) (message : String)
    (coordinates : Option Coordinates) : LogEntry :=
  { id := Nat.repr nowMs, timestamp := ts, message := message,
    coordinates := coordinates }

/-- The log update performed by `addLogEntry`:
`setLogs(prevLogs => [newLog, ...prevLogs.slice(0, 49)])`. -/
def addLogEntry (newLog : LogEntry) (prevLogs : List LogEntry) :
    List LogEntry :=
  newLog :: prevLogs.take 49

/-- `clearLogs`: replaces the whole log with one synthetic entry. -/
def clearLogs (nowMs : ℕ) (ts : String) : List LogEntry :=
  [mkLogEntry nowMs ts "Logs limpos pelo usuário." none]

/-! ## Sensor reading handlers

Each `onreading` callback is a pure function of the gating flags
(`isArmingRef`, `isAlarmPlayingRef`, `isServiceActiveRef`), the stored
baseline (when the sensor keeps one) and the current reading.  It returns
the new baseline and whether `triggerAlarm` was invoked. -/

/-- Result of one accelerometer/magnetometer callback: the updated baseline
ref and whether the trigger path was invoked. -/
structure ReadingResult where
  baseline : Option Vec3
  triggered : Bool
deriving DecidableEq, Repr

/-- A `DeviceMotionEvent.accelerationIncludingGravity`-style payload: the
vector itself and each axis may be null. -/
structure NullableVec3 where
  x : Option ℚ
  y : Option ℚ
  z : Option ℚ
deriving DecidableEq, Repr

/-- `motionHandlerInternal` (accelerometer).  The source compares
`Math.sqrt(ΔX²+ΔY²+ΔZ²) > MOTION_THRESHOLD`; since both sides are
nonnegative this is the same as comparing the squares, which keeps the
definition executable over `ℚ` (the equivalence with the square-root form
is proved in theorem C6 below). -/
def motionHandlerInternal (isArming isAlarmPlaying isServiceActive : Bool)
    (lastAccel : Option Vec3)
    (accelerationIncludingGravity : Option NullableVec3) : ReadingResult :=
  if isArming || isAlarmPlaying || !isServiceActive then
    ⟨lastAccel, false⟩
  else
    match accelerationIncludingGravity with
    | some ⟨some x, some y, some z⟩ =>
      match lastAccel with
      | none => ⟨some ⟨x, y, z⟩, false⟩
      | some last =>
        let deltaX := |x - last.x|
        let deltaY := |y - last.y|
        let deltaZ := |z - last.z|
        let totalDeltaSq := deltaX * deltaX + deltaY * deltaY + deltaZ * deltaZ
        ⟨some ⟨x, y, z⟩, decide (totalDeltaSq > MOTION_THRESHOLD ^ 2)⟩
    | _ => ⟨lastAccel, false⟩

/-- Gyroscope `sensor.onreading`.  The source gates on
`!sensor.x || !sensor.y || !sensor.z` — a JavaScript falsiness test, true
when the axis is null/undefined or exactly 0 — and then compares the
absolute value of each axis of the CURRENT reading against the threshold
(no baseline is kept for this sensor). -/
def gyroOnReading (isArming isAlarmPlaying isServiceActive : Bool)
    (x y z : Option ℚ) : Bool :=
  match x, y, z with
  | some a, some b, some c =>
    if isArming || isAlarmPlaying || !isServiceActive
        || a == 0 || b == 0 || c == 0 then
      false
    else
      decide (|a| > GYROSCOPE_THRESHOLD) || decide (|b| > GYROSCOPE_THRESHOLD)
        || decide (|c| > GYROSCOPE_THRESHOLD)
  | _, _, _ => false

/-- Native `ProximitySensor` `onreading`: triggers whenever `sensor.near`
is truthy (no baseline is kept). -/
def proximityOnReading (isArming isAlarmPlaying isServiceActive : Bool)
    (near : Option Bool) : Bool :=
  if isArming || isAlarmPlaying || !isServiceActive then false
  else near == some true

/-- Legacy `deviceproximity` event handler. -/
def proximityLegacyHandler (isArming isAlarmPlaying isServiceActive : Bool)
    (value maxValue : ℚ) : Bool :=
  if isArming || isAlarmPlaying || !isServiceActive then false
  else decide (value < PROXIMITY_FALLBACK_THRESHOLD_CM) && decide (value < maxValue)

/-- Result of a scalar-baseline sensor callback (light, barometer). -/
structure ScalarReadingResult where
  baseline : Option ℚ
  triggered : Bool
deriving DecidableEq, Repr

/-- `AmbientLightSensor` `onreading`: triggers when the illuminance differs
from the stored last illuminance by more than the threshold; always stores
the current illuminance afterwards.  With no baseline it only seeds. -/
def lightOnReading (isArming isAlarmPlaying isServiceActive : Bool)
    (lastIlluminance : Option ℚ) (illuminance : Option ℚ) :
    ScalarReadingResult :=
  match illuminance with
  | none => ⟨lastIlluminance, false⟩
  | some currentIlluminance =>
    if isArming || isAlarmPlaying || !isServiceActive then
      ⟨lastIlluminance, false⟩
    else
      match lastIlluminance with
      | none => ⟨some currentIlluminance, false⟩
      | some lastVal =>
        ⟨some currentIlluminance,
          decide (|currentIlluminance - lastVal| > LIGHT_CHANGE_THRESHOLD_LUX)⟩

/-- `Magnetometer` `onreading`: like the accelerometer but compared per
axis (any axis alone may trigger). -/
def magnetometerOnReading (isArming isAlarmPlaying isServiceActive : Bool)
    (lastReading : Option Vec3) (x y z : Option ℚ) : ReadingResult :=
  match x, y, z with
  | some a, some b, some c =>
    if isArming || isAlarmPlaying || !isServiceActive then
      ⟨lastReading, false⟩
    else
      match lastReading with
      | none => ⟨some ⟨a, b, c⟩, false⟩
      | some last =>
        let deltaX := |a - last.x|
        let deltaY := |b - last.y|
        let deltaZ := |c - last.z|
        ⟨some ⟨a, b, c⟩,
          decide (deltaX > MAGNETOMETER_CHANGE_THRESHOLD_UT)
            || decide (deltaY > MAGNETOMETER_CHANGE_THRESHOLD_UT)
            || decide (deltaZ > MAGNETOMETER_CHANGE_THRESHOLD_UT)⟩
  | _, _, _ => ⟨lastReading, false⟩

/-- `Barometer` `onreading`: scalar baseline on pressure. -/
def barometerOnReading (isArming isAlarmPlaying isServiceActive : Bool)
    (lastPressure : Option ℚ) (pressure : Option ℚ) : ScalarReadingResult :=
  match pressure with
  | none => ⟨lastPressure, false⟩
  | some currentPressure =>
    if isArming || isAlarmPlaying || !isServiceActive then
      ⟨lastPressure, false⟩
    else
      match lastPressure with
      | none => ⟨some currentPressure, false⟩
      | some lastVal =>
        ⟨some currentPressure,
          decide (|currentPressure - lastVal| > BAROMETER_CHANGE_THRESHOLD_PA)⟩

/-! ## Error-message surface and orchestrator state -/

/-- The updater passed to `setErrorMessage` by `appendErrorMessage`:
deduplicated, appendable advisory text.  `msg.includes(base)` becomes
`String.containsSubstr`. -/
def appendErrorMessageText (prev : Option String) (newMessage : String) :
    String :=
  match prev with
  | none => newMessage
  | some p =>
    if p = "" then newMessage
    else
      let existingMessages := p.splitOn "\n"
      if existingMessages.length = 1 ∧ existingMessages.headD "" = newMessage
      then p
      else
        let newMessageBase :=
          (((newMessage.splitOn " (").headD "").splitOn ":").headD ""
        if existingMessages.any
            (fun msg => String.containsSubstr msg newMessageBase) then
          let foundLen :=
            ((existingMessages.find?
                (fun msg => String.containsSubstr msg newMessageBase)).map
              String.length).getD 0
          if newMessage.length > foundLen then
            String.intercalate "\n"
              ((existingMessages.filter
                  (fun msg => !String.containsSubstr msg newMessageBase))
                ++ [newMessage])
          else p
        else p ++ "\n" ++ newMessage

/-- State of the lazily created `AudioContext` as far as the alarm engine
observes it: `running`, `suspended`, or creation failed. -/
inductive AudioContextState
  | running
  | suspended
  | unavailable
deriving DecidableEq, Repr

/-- The React state hooks and refs of `App` that the detection core reads
and writes.  `liveIntervals` records which `setInterval` handles are still
scheduled (ids are drawn from the `nextTimerId` counter, as browser timer
ids are fresh); `bursts` counts `playSirenBurst` invocations that actually
sounded; `oscillatorOn` is whether `oscillatorRef` holds an in-flight tone
source. -/
structure AppState where
  isServiceActive : Bool
  isArming : Bool
  isAlarmPlaying : Bool
  alarmVolume : ℚ
  logs : List LogEntry
  errorMessage : Option String
  supportedSensors : List String
  lastAccel : Option Vec3
  lastIlluminance : Option ℚ
  lastMagnetometer : Option Vec3
  lastPressure : Option ℚ
  armingTimeoutPending : Bool
  alarmIntervalRef : Option ℕ
  liveIntervals : List ℕ
  oscillatorOn : Bool
  bursts : ℕ
  nextTimerId : ℕ
  audio : AudioContextState
deriving DecidableEq, Repr

/-- `clearInterval(i)`: deschedules interval `i` (safe if not scheduled). -/
def clearIntervalFn (i : ℕ) (s : AppState) : AppState :=
  { s with liveIntervals := s.liveIntervals.erase i }

/-- `playSirenBurst`: returns early unless the audio context is running;
otherwise stops any in-flight oscillator and starts a fresh 800 ms tone
sweep at the current volume (counted in `bursts`). -/
def playSirenBurst (s : AppState) : AppState :=
  match s.audio with
  | .running => { s with oscillatorOn := true, bursts := s.bursts + 1 }
  | _ => s

/-- `startAlarmSound`: first clears any existing repeat interval (leaving
the stale handle in `alarmIntervalRef`), then, if audio is running, plays
an immediate burst and schedules a fresh repeating interval; otherwise
appends an advisory message. -/
def startAlarmSound (s : AppState) : AppState :=
  let s1 := match s.alarmIntervalRef with
            | some i => clearIntervalFn i s
            | none => s
  match s1.audio with
  | .running =>
    let s2 := playSirenBurst s1
    { s2 with alarmIntervalRef := some s2.nextTimerId,
              liveIntervals := s2.nextTimerId :: s2.liveIntervals,
              nextTimerId := s2.nextTimerId + 1 }
  | .suspended =>
    { s1 with errorMessage := some (appendErrorMessageText s1.errorMessage
        "Áudio suspenso. O alarme pode não tocar. Clique na tela e reative o serviço.") }
  | .unavailable =>
    { s1 with errorMessage := some (appendErrorMessageText s1.errorMessage
        "Não é possível reproduzir o alarme. Verifique as permissões de áudio.") }

/-- `stopAlarmSound`: cancels the repeat interval (and nulls its ref) and
stops/releases any in-flight tone source. -/
def stopAlarmSound (s : AppState) : AppState :=
  let s1 := match s.alarmIntervalRef with
            | some i => { clearIntervalFn i s with alarmIntervalRef := none }
            | none => s
  if s1.oscillatorOn then { s1 with oscillatorOn := false } else s1

/-- Outcome of the one-shot geolocation request made by `triggerAlarm`
(an external completion; the handler runs exactly one of the three
callbacks). -/
inductive GeoOutcome
  | success (coords : Coordinates)
  | failure (message : String)
  | unsupported
deriving DecidableEq, Repr

/-- `triggerAlarm(detectionSource)`: guarded on `isAlarmPlayingRef`; when
not yet alarming it flips `isAlarmPlaying`, starts the siren, sets the
alert banner, and (once the geolocation request settles with outcome
`geo`) appends exactly one log entry. -/
def triggerAlarm (geo : GeoOutcome) (nowMs : ℕ) (ts : String)
    (detectionSource : String) (s : AppState) : AppState :=
  if s.isAlarmPlaying then s
  else
    let s1 := { s with isAlarmPlaying := true }
    let s2 := startAlarmSound s1
    let s3 := { s2 with errorMessage := some ("ALERTA! " ++ detectionSource) }
    match geo with
    | .success coords =>
      let entry := mkLogEntry nowMs ts detectionSource (some coords)
      { s3 with logs := addLogEntry entry s3.logs }
    | .failure msg =>
      let entry := mkLogEntry nowMs ts
        (detectionSource ++ " (Localização indisponível)") none
      let s4 := { s3 with logs := addLogEntry entry s3.logs }
      let advisory := appendErrorMessageText s4.errorMessage
        ("Localização: " ++ msg)
      { s4 with errorMessage := some advisory }
    | .unsupported =>
      let entry := mkLogEntry nowMs ts
        (detectionSource ++ " (Geolocalização não suportada)") none
      let s4 := { s3 with logs := addLogEntry entry s3.logs }
      let advisory := appendErrorMessageText s4.errorMessage
        "Geolocalização não suportada"
      { s4 with errorMessage := some advisory }

/-- `stopAlarm` (wired directly to the PARAR ALARME button): stops the
siren, sets the advisory text, deactivates the service, resets all
baselines and clears a pending arming timer.  It appends no log entry. -/
def stopAlarm (s : AppState) : AppState :=
  let s1 := { s with isAlarmPlaying := false }
  let s2 := stopAlarmSound s1
  let s3 := { s2 with errorMessage := some "Alarme parado. Serviço DESATIVADO.",
                      isServiceActive := false, isArming := false,
                      lastAccel := none, lastIlluminance := none,
                      lastMagnetometer := none, lastPressure := none }
  if s3.armingTimeoutPending then { s3 with armingTimeoutPending := false }
  else s3

/-- `toggleService`: deactivates when the service is active or arming
(clearing the arming timer, flags and baselines, stopping the alarm if it
plays, and logging the deactivation); otherwise starts the arming phase
and schedules the arming timer. -/
def toggleService (nowMs : ℕ) (ts : String) (s : AppState) : AppState :=
  let s0 := { s with errorMessage := none, supportedSensors := [] }
  if s0.isServiceActive || s0.isArming then
    let s1 := if s0.armingTimeoutPending
              then { s0 with armingTimeoutPending := false } else s0
    let s2 := { s1 with isServiceActive := false, isArming := false,
                        lastAccel := none, lastIlluminance := none,
                        lastMagnetometer := none, lastPressure := none }
    let s3 := if s2.isAlarmPlaying then stopAlarm s2
              else { s2 with errorMessage := some "Serviço DESATIVADO." }
    let entry := mkLogEntry nowMs ts "Serviço DESATIVADO pelo usuário." none
    { s3 with logs := addLogEntry entry s3.logs }
  else
    let entry := mkLogEntry nowMs ts "Serviço armando em 3 segundos..." none
    { s0 with isArming := true, isServiceActive := true,
              errorMessage :=
                some "Serviço armando em 3s... Sensores e GPS serão ativados.",
              logs := addLogEntry entry s0.logs,
              armingTimeoutPending := true }

/-- Body of the arming `setTimeout` callback: re-checks current intent via
the refs and returns untouched state when the service was deactivated
during the delay; otherwise completes the transition to Active (clearing
baselines and updating the advisory text).  It appends no log entry
itself (the consolidated activation log is emitted by a separate effect,
`activationLogEmits`). -/
def armingTimeoutFire (s : AppState) : AppState :=
  if !s.isServiceActive || !s.isArming then s
  else
    { s with isArming := false,
             lastAccel := none, lastIlluminance := none,
             lastMagnetometer := none, lastPressure := none,
             errorMessage :=
               some "Serviço ATIVO. Monitorando sensores. GPS pronto." }

/-- Condition under which each sensor-starting `useEffect` runs its start
branch: `isServiceActive && !isArming`. -/
def sensorsShouldStart (s : AppState) : Bool :=
  s.isServiceActive && !s.isArming

/-- Condition under which the activation-log effect schedules the
consolidated "Serviço ATIVO. Monitoramento iniciado com sensores: ..."
entry: service active, arming just completed, not yet logged. -/
def activationLogEmits (wasArming hasLoggedActivation : Bool)
    (s : AppState) : Bool :=
  s.isServiceActive && wasArming && !s.isArming && !hasLoggedActivation

/-! ## Sample states for concrete evaluations -/

/-- The initial state of the app: nothing armed, no logs, default
volume 0.9, audio context running. -/
def initialState : AppState :=
  { isServiceActive := false, isArming := false, isAlarmPlaying := false,
    alarmVolume := 9/10, logs := [], errorMessage := none,
    supportedSensors := [], lastAccel := none, lastIlluminance := none,
    lastMagnetometer := none, lastPressure := none,
    armingTimeoutPending := false, alarmIntervalRef := none,
    liveIntervals := [], oscillatorOn := false, bursts := 0,
    nextTimerId := 0, audio := .running }

/-- A state just after (re)entering Active: service on, arming finished,
every baseline empty. -/
def armedFreshState : AppState :=
  { initialState with isServiceActive := true }

/-- A state in the middle of the arming delay. -/
def armingState : AppState :=
  { initialState with
      isServiceActive := true, isArming := true,
      armingTimeoutPending := true }

/-- A state while the alarm is sounding: repeat interval 5 scheduled,
an in-flight tone source, three bursts played so far, one incident
logged. -/
def alarmingState : AppState :=
  { initialState with
      isServiceActive := true, isAlarmPlaying := true,
      alarmIntervalRef := some 5, liveIntervals := [5], oscillatorOn := true,
      bursts := 3, nextTimerId := 6,
      logs := [mkLogEntry 100 "t0" "ALERTA" none] }

end TePeguei

namespace TePeguei

/-! ## Claims -/

/-- C3: at most one Alarming episode is active at a time — when the
service is already Alarming (`isAlarmPlaying`), a further call to
`triggerAlarm` leaves the state completely unchanged: no state change,
no new incident-log entry, and the siren is not restarted, whatever the
geolocation outcome, clock value and source description. -/
theorem triggerAlarm_noop_when_alarming (geo : GeoOutcome) (nowMs : ℕ)
    (ts detectionSource : String) (s : AppState)
    (h : s.isAlarmPlaying = true) :
    triggerAlarm geo nowMs ts detectionSource s = s := by
  unfold triggerAlarm
  rw [h]
  simp

/-- Witness for C3: a concrete alarming state is returned unchanged. -/
theorem triggerAlarm_noop_when_alarming_witness :
    alarmingState.isAlarmPlaying = true ∧
      triggerAlarm .unsupported 200 "t1" "Proximidade detectada!"
        alarmingState = alarmingState :=
  ⟨rfl, triggerAlarm_noop_when_alarming .unsupported 200 "t1"
    "Proximidade detectada!" alarmingState rfl⟩

/-- C4 counterexample: stopping the alarm via `stopAlarm` (the PARAR
ALARME button handler) appends NO incident-log entry at all — on a
concrete Alarming state the log after `stopAlarm` is exactly the log
before, refuting the claim that a "deactivated" entry is appended. -/
theorem stopAlarm_appends_no_log_counterexample :
    alarmingState.isAlarmPlaying = true ∧
      (stopAlarm alarmingState).logs = alarmingState.logs ∧
      (stopAlarm alarmingState).logs.length = 1 := by
  refine ⟨rfl, rfl, rfl⟩

/-- C4 amended: when the user stops the alarm, the state becomes
Inactive (service off, not arming, alarm off), the siren stops (repeat
interval cancelled, tone source released), all sensor baselines are
cleared, and the advisory text is set to "Alarme parado. Serviço
DESATIVADO." — but the incident log is left untouched (no "deactivated"
entry is appended on this path; that entry exists only on the
`toggleService` deactivation path). -/
theorem stopAlarm_deactivates_without_logging (s : AppState) :
    (stopAlarm s).isAlarmPlaying = false ∧
      (stopAlarm s).isServiceActive = false ∧
      (stopAlarm s).isArming = false ∧
      (stopAlarm s).alarmIntervalRef = none ∧
      (stopAlarm s).oscillatorOn = false ∧
      (stopAlarm s).lastAccel = none ∧
      (stopAlarm s).lastIlluminance = none ∧
      (stopAlarm s).lastMagnetometer = none ∧
      (stopAlarm s).lastPressure = none ∧
      (stopAlarm s).errorMessage = some "Alarme parado. Serviço DESATIVADO." ∧
      (stopAlarm s).logs = s.logs := by
  unfold stopAlarm stopAlarmSound clearIntervalFn
  rcases s with ⟨_, _, _, _, _, _, _, _, _, _, _, pend, iref, live, osc, _, _, _⟩
  cases iref <;> cases osc <;> cases pend <;> simp

/-- C7: appending to a full incident log prepends the new entry and
evicts the oldest — for any log of exactly 50 entries, `addLogEntry`
yields the new entry followed by the previous log minus its last
element, and the length stays 50 (newest-first order preserved). -/
theorem addLogEntry_at_cap (e : LogEntry) (logs : List LogEntry)
    (h : logs.length = 50) :
    addLogEntry e logs = e :: logs.dropLast ∧
      (addLogEntry e logs).length = 50 := by
  constructor
  · unfold addLogEntry
    rw [List.dropLast_eq_take, h]
  · unfold addLogEntry
    simp [h]

/-- A concrete 50-entry incident log for the C7 witness. -/
def fullSampleLog : List LogEntry :=
  (List.range 50).map (fun i => mkLogEntry i "t" "Movimento detectado!" none)

/-- Witness for C7: the cap behaviour evaluated on a concrete 50-entry
log and a fresh 51st entry. -/
theorem addLogEntry_at_cap_witness :
    fullSampleLog.length = 50 ∧
      (addLogEntry (mkLogEntry 50 "t" "Proximidade detectada!" none)
          fullSampleLog =
        mkLogEntry 50 "t" "Proximidade detectada!" none ::
          fullSampleLog.dropLast ∧
      (addLogEntry (mkLogEntry 50 "t" "Proximidade detectada!" none)
          fullSampleLog).length = 50) :=
  ⟨by rfl,
    addLogEntry_at_cap (mkLogEntry 50 "t" "Proximidade detectada!" none)
      fullSampleLog (by rfl)⟩

/-- C8: log-entry ids are `Date.now().toString()`, so two entries
created within the same millisecond receive the SAME id — here two
distinct entries (different messages) built at the same clock value end
up together in the log with equal ids, contradicting uniqueness. -/
theorem logEntry_id_collision_same_millisecond :
    mkLogEntry 1700000000000 "ts" "Movimento (Acelerômetro) detectado!" none
        ≠ mkLogEntry 1700000000000 "ts" "Rotação (Giroscópio) detectada!" none
      ∧ (mkLogEntry 1700000000000 "ts" "Movimento (Acelerômetro) detectado!"
            none).id =
          (mkLogEntry 1700000000000 "ts" "Rotação (Giroscópio) detectada!"
            none).id
      ∧ addLogEntry
          (mkLogEntry 1700000000000 "ts" "Rotação (Giroscópio) detectada!"
            none)
          (addLogEntry
            (mkLogEntry 1700000000000 "ts"
              "Movimento (Acelerômetro) detectado!" none) []) =
        [mkLogEntry 1700000000000 "ts" "Rotação (Giroscópio) detectada!" none,
          mkLogEntry 1700000000000 "ts" "Movimento (Acelerômetro) detectado!"
            none] := by
  refine ⟨?_, rfl, rfl⟩
  intro hcontra
  exact absurd (congrArg LogEntry.message hcontra) (by decide)

/-- C9 counterexample: with the siren already running (interval 5
scheduled, 3 bursts played), calling `startAlarmSound` again is NOT a
no-op — it plays an additional immediate burst and replaces the repeat
interval with a fresh one. -/
theorem startAlarmSound_not_idempotent_counterexample :
    startAlarmSound alarmingState ≠ alarmingState ∧
      (startAlarmSound alarmingState).bursts = alarmingState.bursts + 1 ∧
      (startAlarmSound alarmingState).alarmIntervalRef
        ≠ alarmingState.alarmIntervalRef := by
  refine ⟨?_, rfl, by decide⟩
  intro hcontra
  exact absurd (congrArg AppState.bursts hcontra) (by decide)

/-- C9 amended: when the siren is already running, `startAlarmSound`
restarts it — the previously scheduled repeat interval is cancelled,
one additional immediate burst is played, and a fresh repeat interval
is scheduled in its place. -/
theorem startAlarmSound_restarts_when_running (s : AppState) (i : ℕ)
    (haudio : s.audio = .running) (href : s.alarmIntervalRef = some i)
    (hfresh : i < s.nextTimerId) (hnodup : s.liveIntervals.Nodup) :
    (startAlarmSound s).bursts = s.bursts + 1 ∧
      (startAlarmSound s).alarmIntervalRef = some s.nextTimerId ∧
      s.nextTimerId ∈ (startAlarmSound s).liveIntervals ∧
      i ∉ (startAlarmSound s).liveIntervals ∧
      (startAlarmSound s).nextTimerId = s.nextTimerId + 1 := by
  unfold startAlarmSound clearIntervalFn playSirenBurst
  rw [href, haudio]
  refine ⟨rfl, rfl, List.mem_cons_self _ _, ?_, rfl⟩
  simp only [List.mem_cons]
  rintro (hno | hno)
  · exact absurd hno (Nat.ne_of_lt hfresh)
  · exact absurd hno hnodup.not_mem_erase

/-- Witness for C9 amended: the restart behaviour on the concrete
alarming state (interval 5 live, next fresh id 6). -/
theorem startAlarmSound_restarts_when_running_witness :
    alarmingState.audio = .running ∧
      alarmingState.alarmIntervalRef = some 5 ∧
      ((startAlarmSound alarmingState).bursts = alarmingState.bursts + 1 ∧
        (startAlarmSound alarmingState).alarmIntervalRef =
          some alarmingState.nextTimerId ∧
        alarmingState.nextTimerId ∈
          (startAlarmSound alarmingState).liveIntervals ∧
        5 ∉ (startAlarmSound alarmingState).liveIntervals ∧
        (startAlarmSound alarmingState).nextTimerId =
          alarmingState.nextTimerId + 1) :=
  ⟨rfl, rfl, startAlarmSound_restarts_when_running alarmingState 5 rfl rfl
    (by decide) (by decide)⟩

/-- C1 counterexample: the gyroscope handler keeps no baseline, so the
very first reading delivered after (re)entering Active (all baselines
empty) CAN trigger — reading (1,1,1) rad/s invokes the trigger path and
the service becomes Alarming. -/
theorem gyro_first_reading_triggers_counterexample :
    armedFreshState.lastAccel = none ∧
      armedFreshState.lastMagnetometer = none ∧
      gyroOnReading armedFreshState.isArming armedFreshState.isAlarmPlaying
        armedFreshState.isServiceActive (some 1) (some 1) (some 1) = true ∧
      (triggerAlarm .unsupported 300 "t2" "Rotação (Giroscópio) detectada!"
        armedFreshState).isAlarmPlaying = true := by
  refine ⟨rfl, rfl, ?_, rfl⟩
  norm_num [armedFreshState, initialState, gyroOnReading,
    GYROSCOPE_THRESHOLD]

/-- C1 amended: the baseline-based handlers (accelerometer,
magnetometer, ambient light, barometer) never trigger when no baseline
exists — the reading at most seeds the baseline — but the gyroscope and
proximity handlers keep no baseline at all and may trigger on the very
first reading after (re)entering Active. -/
theorem first_reading_only_seeds_for_baseline_sensors
    (isArming isAlarmPlaying isServiceActive : Bool)
    (ev : Option NullableVec3) (x y z ill p : Option ℚ) :
    (motionHandlerInternal isArming isAlarmPlaying isServiceActive none
        ev).triggered = false ∧
      (magnetometerOnReading isArming isAlarmPlaying isServiceActive none
        x y z).triggered = false ∧
      (lightOnReading isArming isAlarmPlaying isServiceActive none
        ill).triggered = false ∧
      (barometerOnReading isArming isAlarmPlaying isServiceActive none
        p).triggered = false ∧
      gyroOnReading false false true (some 1) (some 1) (some 1) = true ∧
      proximityOnReading false false true (some true) = true := by
  refine ⟨?_, ?_, ?_, ?_,
    by norm_num [gyroOnReading, GYROSCOPE_THRESHOLD], rfl⟩
  · cases isArming <;> cases isAlarmPlaying <;> cases isServiceActive <;>
      rcases ev with _ | ⟨(_ | ex), (_ | ey), (_ | ez)⟩ <;> rfl
  · cases isArming <;> cases isAlarmPlaying <;> cases isServiceActive <;>
      rcases x with _ | a <;> rcases y with _ | b <;> rcases z with _ | c <;>
      rfl
  · cases isArming <;> cases isAlarmPlaying <;> cases isServiceActive <;>
      rcases ill with _ | v <;> rfl
  · cases isArming <;> cases isAlarmPlaying <;> cases isServiceActive <;>
      rcases p with _ | v <;> rfl

/-- Modelled from the spec for comparison with `gyroOnReading` (the
claimed change detector): delta is the maximum per-axis absolute
difference between previous and current reading, triggering when any
single axis delta exceeds the 0.7 rad/s threshold. -/
def specGyroDelta (previous current : Vec3) : ℚ :=
  max |current.x - previous.x|
    (max |current.y - previous.y| |current.z - previous.z|)

/-- Trigger decision of the spec-claimed gyroscope change detector. -/
def specGyroTriggers (previous current : Vec3) : Bool :=
  decide (specGyroDelta previous current > GYROSCOPE_THRESHOLD)

/-- C2 counterexample: the code's gyroscope handler disagrees with the
claimed previous-vs-current delta detector in both directions.  With
previous (0.65,0.1,0.1) and current (0.75,0.1,0.1) the claimed per-axis
delta is 0.1 ≤ 0.7 (no trigger) yet the code triggers; with previous
(1.5,0.1,0.1) and current (0.5,0.1,0.1) the claimed delta is 1.0 > 0.7
(trigger) yet the code does not trigger. -/
theorem gyro_detector_disagrees_with_claim_counterexample :
    specGyroTriggers ⟨13/20, 1/10, 1/10⟩ ⟨3/4, 1/10, 1/10⟩ = false ∧
      gyroOnReading false false true (some (3/4)) (some (1/10))
        (some (1/10)) = true ∧
      specGyroTriggers ⟨3/2, 1/10, 1/10⟩ ⟨1/2, 1/10, 1/10⟩ = true ∧
      gyroOnReading false false true (some (1/2)) (some (1/10))
        (some (1/10)) = false := by
  refine ⟨?_, ?_, ?_, ?_⟩ <;>
    norm_num [specGyroTriggers, specGyroDelta, gyroOnReading,
      GYROSCOPE_THRESHOLD, abs_of_nonneg, abs_of_nonpos]

/-- C2 amended: the gyroscope handler keeps no previous reading — in the
Active state, once every axis passes the falsiness gate (nonzero,
non-null), it triggers exactly when the absolute value of some axis of
the CURRENT reading exceeds 0.7 rad/s. -/
theorem gyro_triggers_on_absolute_axis_value (a b c : ℚ)
    (ha : a ≠ 0) (hb : b ≠ 0) (hc : c ≠ 0) :
    gyroOnReading false false true (some a) (some b) (some c) = true
      ↔ (|a| > GYROSCOPE_THRESHOLD ∨ |b| > GYROSCOPE_THRESHOLD
          ∨ |c| > GYROSCOPE_THRESHOLD) := by
  unfold gyroOnReading
  simp [ha, hb, hc, or_assoc]

/-- Witness for C2 amended: reading (1,1,1) rad/s with all axes nonzero
triggers since |1| > 0.7. -/
theorem gyro_triggers_on_absolute_axis_value_witness :
    (1:ℚ) ≠ 0 ∧
      (gyroOnReading false false true (some 1) (some 1) (some 1) = true
        ↔ (|(1:ℚ)| > GYROSCOPE_THRESHOLD ∨ |(1:ℚ)| > GYROSCOPE_THRESHOLD
            ∨ |(1:ℚ)| > GYROSCOPE_THRESHOLD)) :=
  ⟨by norm_num,
    gyro_triggers_on_absolute_axis_value 1 1 1 (by norm_num) (by norm_num)
      (by norm_num)⟩

/-- C5: toggling (deactivating) while the service is Arming makes the
transition to Active impossible: the service flags drop, the arming
timer callback — should it still fire — re-checks current intent and
changes nothing, the sensor-starting effects do not run, and no
consolidated activation log entry is emitted. -/
theorem deactivation_during_arming_prevents_activation (nowMs : ℕ)
    (ts : String) (s : AppState) (h : s.isArming = true) :
    (toggleService nowMs ts s).isServiceActive = false ∧
      (toggleService nowMs ts s).isArming = false ∧
      armingTimeoutFire (toggleService nowMs ts s) = toggleService nowMs ts s ∧
      sensorsShouldStart (toggleService nowMs ts s) = false ∧
      (∀ wasArming hasLogged : Bool,
        activationLogEmits wasArming hasLogged (toggleService nowMs ts s)
          = false) ∧
      (armingTimeoutFire (toggleService nowMs ts s)).logs
        = (toggleService nowMs ts s).logs := by
  rcases s with ⟨sa, arm, play, vol, logs, err, sup, la, li, lm, lp, pend,
    iref, live, osc, bursts, nid, audio⟩
  simp only at h
  subst h
  cases sa <;> cases play <;> cases pend <;> cases iref <;> cases osc <;>
    simp [toggleService, stopAlarm, stopAlarmSound, clearIntervalFn,
      armingTimeoutFire, sensorsShouldStart, activationLogEmits]

/-- Witness for C5: deactivating the concrete mid-arming state. -/
theorem deactivation_during_arming_prevents_activation_witness :
    armingState.isArming = true ∧
      ((toggleService 400 "t3" armingState).isServiceActive = false ∧
        (toggleService 400 "t3" armingState).isArming = false ∧
        armingTimeoutFire (toggleService 400 "t3" armingState)
          = toggleService 400 "t3" armingState ∧
        sensorsShouldStart (toggleService 400 "t3" armingState) = false ∧
        (∀ wasArming hasLogged : Bool,
          activationLogEmits wasArming hasLogged
            (toggleService 400 "t3" armingState) = false) ∧
        (armingTimeoutFire (toggleService 400 "t3" armingState)).logs
          = (toggleService 400 "t3" armingState).logs) :=
  ⟨rfl, deactivation_during_arming_prevents_activation 400 "t3" armingState
    rfl⟩

/-- C6: with an existing baseline and the service Active, the
accelerometer handler triggers exactly when the Euclidean norm of the
per-axis differences between baseline and current reading strictly
exceeds 0.6; baseline (0,0,9.8) followed by reading (0,0,11.0) has norm
1.2 and triggers, while a delta of exactly 0.6 does not trigger. -/
theorem accel_triggers_iff_norm_exceeds_threshold :
    (∀ last current : Vec3,
      (motionHandlerInternal false false true (some last)
          (some ⟨some current.x, some current.y, some current.z⟩)).triggered
          = true
        ↔ Real.sqrt (((current.x - last.x) ^ 2 + (current.y - last.y) ^ 2
            + (current.z - last.z) ^ 2 : ℚ) : ℝ) > 3/5) ∧
      (motionHandlerInternal false false true (some ⟨0, 0, 49/5⟩)
        (some ⟨some 0, some 0, some 11⟩)).triggered = true ∧
      Real.sqrt ((((0 : ℚ) - 0) ^ 2 + ((0 : ℚ) - 0) ^ 2
        + ((11 : ℚ) - 49/5) ^ 2 : ℚ) : ℝ) = 6/5 ∧
      (motionHandlerInternal false false true (some ⟨0, 0, 0⟩)
        (some ⟨some (3/5), some 0, some 0⟩)).triggered = false := by
  refine ⟨?_,
    by norm_num [motionHandlerInternal, MOTION_THRESHOLD, abs_of_nonneg,
      abs_of_nonpos], ?_,
    by norm_num [motionHandlerInternal, MOTION_THRESHOLD, abs_of_nonneg,
      abs_of_nonpos]⟩
  · intro last current
    have habs : ∀ d : ℚ, |d| * |d| = d ^ 2 := by
      intro d
      rw [abs_mul_abs_self, sq]
    simp [motionHandlerInternal, MOTION_THRESHOLD, habs]
    rw [Real.lt_sqrt (by norm_num)]
    rify
    norm_num
  · rw [show ((((0 : ℚ) - 0) ^ 2 + ((0 : ℚ) - 0) ^ 2
        + ((11 : ℚ) - 49/5) ^ 2 : ℚ) : ℝ) = (6/5 : ℝ) ^ 2 by push_cast; norm_num]
    exact Real.sqrt_sq (by norm_num)

/-- C10: a gyroscope reading in which any axis is null or exactly 0 is
discarded by the falsiness gate `!sensor.x || !sensor.y || !sensor.z` —
the handler returns immediately and never invokes the trigger path,
whatever the other axes hold and whatever the gating flags are. -/
theorem gyro_zero_axis_never_triggers (isArming isAlarmPlaying
    isServiceActive : Bool) (x y z : Option ℚ)
    (h : (x = some 0 ∨ x = none) ∨ (y = some 0 ∨ y = none)
      ∨ (z = some 0 ∨ z = none)) :
    gyroOnReading isArming isAlarmPlaying isServiceActive x y z = false := by
  unfold gyroOnReading
  rcases x with _ | a <;> rcases y with _ | b <;> rcases z with _ | c <;>
    try rfl
  rcases h with (h | h) | (h | h) | (h | h) <;>
    first
      | (injection h with h; simp [h])
      | exact absurd h (by simp)

/-- Witness for C10: axis x is exactly 0 while axis y is 5 rad/s (far
above the 0.7 threshold) — the handler still does not trigger. -/
theorem gyro_zero_axis_never_triggers_witness :
    ((some (0:ℚ) = some 0 ∨ some (0:ℚ) = none)
        ∨ (some (5:ℚ) = some 0 ∨ some (5:ℚ) = none)
        ∨ (some (1:ℚ) = some 0 ∨ some (1:ℚ) = none)) ∧
      gyroOnReading false false true (some 0) (some 5) (some 1) = false :=
  ⟨Or.inl (Or.inl rfl),
    gyro_zero_axis_never_triggers false false true (some 0) (some 5) (some 1)
      (Or.inl (Or.inl rfl))⟩

end TePeguei
